import Mathlib

/-!
Verification of the twinmind retrieval-to-generation pipeline.

Shallow embedding of the core services:
  app/services/chunker.py      (TextChunker.chunk_pages)
  app/services/embedder.py     (EmbeddingService.generate_embeddings_batch)
  app/services/search.py       (SearchService.semantic_search)
  app/services/rag_service.py  (RAGService.answer_question, answer_question_stream,
                                _build_context, _estimate_confidence, multi_query_rag)
  app/api/rag_routes.py        (generate_response event framing)

External collaborators (OpenAI embedding/chat clients, ChromaDB, SQLAlchemy
session) are modelled as function parameters; machine floats are modelled as
rationals; Python round(x, 4) is modelled with Mathlib round (ties do not
occur at any value a claim mentions).
-/

/-- Scoring: similarity_score = 1 / (1 + distance), from search.py line 78. -/
def similarity_score (distance : ℚ) : ℚ := 1 / (1 + distance)

/-- Rounding to 4 decimal digits, modelling Python round(x, 4) in search.py line 86. -/
def round4 (q : ℚ) : ℚ := ((round (q * 10000) : ℤ) : ℚ) / 10000

/-- The relevance score recorded on each search hit: round(1 / (1 + distance), 4). -/
def relevance_score (distance : ℚ) : ℚ := round4 (similarity_score distance)

lemma similarity_score_pos {d : ℚ} (hd : 0 ≤ d) : 0 < similarity_score d := by
  unfold similarity_score
  positivity

lemma similarity_score_le_one {d : ℚ} (hd : 0 ≤ d) : similarity_score d ≤ 1 := by
  unfold similarity_score
  rw [div_le_one (by linarith)]
  linarith

lemma similarity_score_strict_anti {d e : ℚ} (hd : 0 ≤ d) (hde : d < e) :
    similarity_score e < similarity_score d := by
  unfold similarity_score
  rw [div_lt_div_iff₀ (by linarith) (by linarith)]
  linarith

lemma round4_mono {a b : ℚ} (h : a ≤ b) : round4 a ≤ round4 b := by
  unfold round4
  have hf : round (a * 10000) ≤ round (b * 10000) := by
    rw [round_eq, round_eq]
    exact Int.floor_le_floor (by linarith)
  have : ((round (a * 10000) : ℤ) : ℚ) ≤ ((round (b * 10000) : ℤ) : ℚ) := by
    exact_mod_cast hf
  linarith

lemma relevance_score_at_zero : relevance_score 0 = 1 := by
  unfold relevance_score round4 similarity_score
  norm_num

lemma relevance_score_at_one : relevance_score 1 = 1 / 2 := by
  unfold relevance_score round4 similarity_score
  norm_num

lemma relevance_score_at_four : relevance_score 4 = 1 / 5 := by
  unfold relevance_score round4 similarity_score
  norm_num

/-! ## Data model: database records and vector-index results (app/database) -/

/-- A ContentChunk row (app/database/models.py) as read by the search service. -/
structure ContentChunk where
  id : String
  document_id : String
  content : String
  page_number : Option Nat
  chunk_index : Nat
  chunk_metadata : List (String × String)
  created_at : String
deriving DecidableEq

/-- A Document row (app/database/models.py) as read by the search service. -/
structure Document where
  id : String
  title : String
  page_count : Nat
deriving DecidableEq

/-- The relational store (SQLAlchemy session) as lookup functions keyed by id. -/
structure Db where
  chunks : String → Option ContentChunk
  documents : String → Option Document

/-- A query issued to the vector store: VectorStore.search arguments
(app/database/vector_store.py). -/
structure VectorQuery where
  query_embedding : List ℚ
  n_results : Nat
  filter_user : Option String
deriving DecidableEq

/-- The ChromaDB query payload: outer lists have one entry per query vector,
inner lists one entry per hit, aligned by position. -/
structure VectorQueryResult where
  ids : List (List String)
  distances : List (List ℚ)
  documents : List (List String)
  metadatas : List (List (List (String × String)))
deriving DecidableEq

/-- Metadata attached to each search result: chunk_metadata merged with
chunk_index and created_at (search.py lines 87-91). -/
structure ResultMeta where
  base : List (String × String)
  chunk_index : Nat
  created_at : String
deriving DecidableEq

/-- One entry of the list returned by SearchService.semantic_search. -/
structure SearchResult where
  chunk_id : String
  document_id : String
  document_title : String
  content : String
  page_number : Option Nat
  relevance_score : ℚ
  meta : ResultMeta
deriving DecidableEq

/-- The result-processing loop of semantic_search (search.py lines 66-93):
resolve each hit id against the store, silently dropping hits whose chunk or
document is missing, and convert its distance to a relevance score. -/
def process_hits (db : Db) : List (String × ℚ) → List SearchResult
  | [] => []
  | (chunk_id, dist) :: rest =>
    match db.chunks chunk_id with
    | none => process_hits db rest
    | some chunk =>
      match db.documents chunk.document_id with
      | none => process_hits db rest
      | some document =>
        { chunk_id := chunk_id
          document_id := chunk.document_id
          document_title := document.title
          content := chunk.content
          page_number := chunk.page_number
          relevance_score := relevance_score dist
          meta := { base := chunk.chunk_metadata
                    chunk_index := chunk.chunk_index
                    created_at := chunk.created_at } } :: process_hits db rest

/-- SearchService.semantic_search (search.py lines 19-96).  The vector store
and the query embedder are abstract collaborators; alongside the result list
the embedding returns the list of vector-store queries issued, in order. -/
def semantic_search (store : VectorQuery → VectorQueryResult) (embedQ : String → List ℚ)
    (db : Db) (query : String) (top_k : Nat) (user_id : String) :
    List SearchResult × List VectorQuery :=
  let query_embedding := embedQ query
  let q1 : VectorQuery :=
    { query_embedding := query_embedding, n_results := top_k, filter_user := some user_id }
  let r1 := store q1
  let step : VectorQueryResult × List VectorQuery :=
    if r1.ids = [] ∨ r1.ids.headD [] = [] then
      let q2 : VectorQuery :=
        { query_embedding := query_embedding, n_results := top_k, filter_user := none }
      (store q2, [q1, q2])
    else
      (r1, [q1])
  let vr := step.1
  let results :=
    if vr.ids ≠ [] ∧ vr.ids.headD [] ≠ [] then
      process_hits db ((vr.ids.headD []).zip (vr.distances.headD []))
    else
      []
  (results, step.2)

/-! ## RAGService (app/services/rag_service.py) -/

/-- Rendering of a % .2f format of a relevance score inside the context block
(rag_service.py line 167); scores are non-negative in practice, negative
values render with a leading minus. -/
def formatFixed2 (q : ℚ) : String :=
  let n : ℤ := round (q * 100)
  let s := if n < 0 then "-" else ""
  let m := n.natAbs
  s ++ toString (m / 100) ++ "." ++ (if m % 100 < 10 then "0" else "") ++ toString (m % 100)

/-- Rendering of the page number inside the context block: the search service
always populates the page_number key, so the dict .get default never fires and
an absent page prints as Python None does. -/
def pageStr : Option Nat → String
  | some n => toString n
  | none => "None"

/-- A source citation dict as built by RAGService._build_context
(rag_service.py lines 171-179). -/
structure SourceCitation where
  source_id : Nat
  document_title : String
  page_number : Option Nat
  relevance_score : ℚ
  chunk_id : String
  document_id : String
  content_preview : String
deriving DecidableEq

/-- The loop body of RAGService._build_context (rag_service.py lines 158-179),
carrying the 1-based ordinal i: produces the context blocks and the parallel
citation list. -/
def build_context_go : List SearchResult → Nat → List String × List SourceCitation
  | [], _ => ([], [])
  | r :: rest, i =>
    let part :=
      "[Source " ++ toString i ++ ": " ++ r.document_title ++ ", Page " ++
        pageStr r.page_number ++ ", Relevance: " ++ formatFixed2 r.relevance_score ++
        "]\n" ++ r.content ++ "\n"
    let citation : SourceCitation :=
      { source_id := i
        document_title := r.document_title
        page_number := r.page_number
        relevance_score := r.relevance_score
        chunk_id := r.chunk_id
        document_id := r.document_id
        content_preview :=
          if r.content.length > 200 then r.content.take 200 ++ "..." else r.content }
    let rec_result := build_context_go rest (i + 1)
    (part :: rec_result.1, citation :: rec_result.2)

/-- RAGService._build_context (rag_service.py lines 142-182). -/
def build_context (search_results : List SearchResult) : String × List SourceCitation :=
  let parts := build_context_go search_results 1
  (String.intercalate "\n---\n" parts.1, parts.2)

/-- RAGService._estimate_confidence (rag_service.py lines 184-205). -/
def estimate_confidence : List SearchResult → String
  | [] => "none"
  | top :: _ =>
    if top.relevance_score ≥ 0.8 then "high"
    else if top.relevance_score ≥ 0.6 then "medium"
    else "low"

/-- Token usage accounting attached to an answer. -/
structure Usage where
  prompt_tokens : Nat
  completion_tokens : Nat
  total_tokens : Nat
deriving DecidableEq

/-- The dict returned by LLMService.generate_answer (llm_service.py
lines 78-83), abstracted over the provider call. -/
structure LLMAnswer where
  answer : String
  model : String
  usage : Usage
  finish_reason : String
deriving DecidableEq

/-- The dict returned by RAGService.answer_question (rag_service.py
lines 54-65 and 79-86). -/
structure AnswerResult where
  answer : String
  sources : List SourceCitation
  context_used : Nat
  confidence : String
  model : String
  usage : Usage
deriving DecidableEq

/-- The fixed fallback answer for empty retrieval (rag_service.py line 55). -/
def fallback_answer : String :=
  "I couldn\x27t find any relevant information in your documents to answer this question."

/-- RAGService.answer_question (rag_service.py lines 18-89).  Retrieval and
the LLM call are abstract collaborators; the Bool records whether the LLM
generate_answer call was made. -/
def answer_question
    (retrieve : String → List SearchResult)
    (llm : String → String → Option String → List (String × String) → LLMAnswer)
    (llm_model : String)
    (question : String) (system_prompt : Option String)
    (conversation_history : List (String × String)) (include_sources : Bool) :
    AnswerResult × Bool :=
  let search_results := retrieve question
  if search_results.isEmpty then
    ({ answer := fallback_answer
       sources := []
       context_used := 0
       confidence := "none"
       model := llm_model
       usage := { prompt_tokens := 0, completion_tokens := 0, total_tokens := 0 } }, false)
  else
    let ctx := build_context search_results
    let llm_response := llm question ctx.1 system_prompt conversation_history
    ({ answer := llm_response.answer
       sources := if include_sources then ctx.2 else []
       context_used := search_results.length
       model := llm_response.model
       usage := llm_response.usage
       confidence := estimate_confidence search_results }, true)

/-- RAGService.answer_question_stream (rag_service.py lines 91-140): returns
the answer fragment stream (a finite list of yielded strings) and the
citation list; the Bool records whether the streaming LLM call was made. -/
def answer_question_stream
    (retrieve : String → List SearchResult)
    (llmStream : String → String → Option String → List (String × String) → List String)
    (question : String) (system_prompt : Option String)
    (conversation_history : List (String × String)) :
    (List String × List SourceCitation) × Bool :=
  let search_results := retrieve question
  if search_results.isEmpty then
    (([fallback_answer], []), false)
  else
    let ctx := build_context search_results
    ((llmStream question ctx.1 system_prompt conversation_history, ctx.2), true)

/-! ## Streaming route (app/api/rag_routes.py) -/

/-- The projection of a citation sent in the sources event
(rag_routes.py lines 97-103). -/
structure SourceView where
  source_id : Nat
  document_title : String
  page_number : Option Nat
  relevance_score : ℚ
  content_preview : String
deriving DecidableEq

/-- One server-sent event as framed by generate_response: its type tag and
payload (each is serialized as one data: JSON record followed by a blank
line). -/
inductive SSEEvent where
  | sources (data : List SourceView)
  | answer (data : String)
  | done
deriving DecidableEq

/-- Field projection applied to each citation in the sources event. -/
def source_view (s : SourceCitation) : SourceView :=
  { source_id := s.source_id
    document_title := s.document_title
    page_number := s.page_number
    relevance_score := s.relevance_score
    content_preview := s.content_preview }

/-- The generate_response async generator of the /ask/stream route
(rag_routes.py lines 91-118), as the finite list of events it yields. -/
def generate_response (answer_stream : List String) (sources : List SourceCitation) :
    List SSEEvent :=
  SSEEvent.sources (sources.map source_view) ::
    (answer_stream.map SSEEvent.answer ++ [SSEEvent.done])

/-- The /ask/stream endpoint pipeline (rag_routes.py lines 63-127): run the
streaming RAG call, then frame its stream and sources as events; the Bool
records whether the streaming LLM call was made. -/
def ask_question_stream_events
    (retrieve : String → List SearchResult)
    (llmStream : String → String → Option String → List (String × String) → List String)
    (question : String) (system_prompt : Option String)
    (conversation_history : List (String × String)) :
    List SSEEvent × Bool :=
  let r := answer_question_stream retrieve llmStream question system_prompt conversation_history
  (generate_response r.1.1 r.1.2, r.2)

/-! ## Batch operation: RAGService.multi_query_rag -/

/-- One entry of the multi_query_rag output list (rag_service.py
lines 236-247): either the question together with the spread answer dict, or
the inline error dict built in the except branch. -/
inductive MultiQueryEntry where
  | success (question : String) (result : AnswerResult)
  | failed (question : String) (message : String)
deriving DecidableEq

/-- The question key, present in both entry shapes. -/
def MultiQueryEntry.question : MultiQueryEntry → String
  | .success q _ => q
  | .failed q _ => q

/-- The answer key: the full answer on success, the formatted error text on
failure (rag_service.py line 244). -/
def MultiQueryEntry.answerText : MultiQueryEntry → String
  | .success _ r => r.answer
  | .failed _ m => "Error processing question: " ++ m

/-- The sources key: empty on failure (rag_service.py line 245). -/
def MultiQueryEntry.sourcesList : MultiQueryEntry → List SourceCitation
  | .success _ r => r.sources
  | .failed _ _ => []

/-- The error flag: only the except branch sets error=True; a success dict
carries no error key (read as false). -/
def MultiQueryEntry.isError : MultiQueryEntry → Bool
  | .success _ _ => false
  | .failed _ _ => true

/-- RAGService.multi_query_rag (rag_service.py lines 207-249): the answering
of one question (retrieval plus generation, which may raise) is the abstract
collaborator answer1; the loop appends one entry per question in order. -/
def multi_query_rag (answer1 : String → Except String AnswerResult)
    (questions : List String) : List MultiQueryEntry :=
  questions.map fun q =>
    match answer1 q with
    | .ok a => .success q a
    | .error e => .failed q e

/-! ## TextChunker (app/services/chunker.py) -/

/-- A page dict handed to chunk_pages. -/
structure Page where
  page_number : Nat
  text : String
deriving DecidableEq

/-- The metadata dict attached to each chunk (chunker.py lines 70-73). -/
structure ChunkMeta where
  page_number : Nat
  char_count : Nat
deriving DecidableEq

/-- A chunk dict produced by chunk_pages (chunker.py lines 65-74). -/
structure Chunk where
  content : String
  chunk_index : Nat
  page_number : Nat
  token_count : Nat
  metadata : ChunkMeta
deriving DecidableEq

/-- Python str.strip with no argument: remove leading and trailing
whitespace (chunker.py line 57 tests page_text.strip() for emptiness). -/
def pyStrip (s : String) : String :=
  String.mk (((s.data.dropWhile Char.isWhitespace).reverse.dropWhile
    Char.isWhitespace).reverse)

/-- The inner loop of chunk_pages over one page's split texts
(chunker.py lines 64-76), carrying the running chunk_index. -/
def chunks_of_page (tokenLen : String → Nat) (page_number : Nat) :
    List String → Nat → List Chunk
  | [], _ => []
  | t :: ts, idx =>
    { content := t
      chunk_index := idx
      page_number := page_number
      token_count := tokenLen t
      metadata := { page_number := page_number, char_count := t.length } }
      :: chunks_of_page tokenLen page_number ts (idx + 1)

/-- The page loop of TextChunker.chunk_pages (chunker.py lines 53-76):
pages whose trimmed text is empty are skipped, the chunk_index counter runs
across pages.  The text splitter (langchain RecursiveCharacterTextSplitter)
and the tiktoken length function are abstract collaborators. -/
def chunk_pages_go (split : String → List String) (tokenLen : String → Nat) :
    List Page → Nat → List Chunk
  | [], _ => []
  | p :: ps, idx =>
    if pyStrip p.text = "" then
      chunk_pages_go split tokenLen ps idx
    else
      chunks_of_page tokenLen p.page_number (split p.text) idx ++
        chunk_pages_go split tokenLen ps (idx + (split p.text).length)

/-- TextChunker.chunk_pages (chunker.py lines 40-79). -/
def chunk_pages (split : String → List String) (tokenLen : String → Nat)
    (pages_data : List Page) : List Chunk :=
  chunk_pages_go split tokenLen pages_data 0

/-! ## EmbeddingService (app/services/embedder.py) -/

/-- The batch loop of generate_embeddings_batch (embedder.py lines 53-62) with
batch size k+1: each iteration embeds the next window of at most k+1 texts via
one provider call — whose contract returns one embedding per input, in input
order — and appends the window's embeddings. -/
def generate_embeddings_batch_go (embedOne : String → List ℚ) (k : Nat) :
    List String → List (List ℚ)
  | [] => []
  | t :: ts =>
    ((t :: ts).take (k + 1)).map embedOne ++
      generate_embeddings_batch_go embedOne k ((t :: ts).drop (k + 1))
termination_by texts => texts.length
decreasing_by
  simp only [List.length_drop, List.length_cons]
  omega

/-- The consecutive windows the batch loop walks through:
texts[0:k+1], texts[k+1:2(k+1)], ... -/
def batch_windows (k : Nat) : List String → List (List String)
  | [] => []
  | t :: ts => (t :: ts).take (k + 1) :: batch_windows k ((t :: ts).drop (k + 1))
termination_by texts => texts.length
decreasing_by
  simp only [List.length_drop, List.length_cons]
  omega

/-- EmbeddingService.generate_embeddings_batch (embedder.py lines 40-72).
Python range(0, len(texts), 0) raises ValueError, modelled as none. -/
def generate_embeddings_batch (embedOne : String → List ℚ) (texts : List String)
    (batch_size : Nat) : Option (List (List ℚ)) :=
  match batch_size with
  | 0 => none
  | k + 1 => some (generate_embeddings_batch_go embedOne k texts)

/-! ## Theorems -/

lemma similarity_score_anti {d e : ℚ} (hd : 0 ≤ d) (hde : d ≤ e) :
    similarity_score e ≤ similarity_score d := by
  unfold similarity_score
  rw [div_le_div_iff₀ (by linarith) (by linarith)]
  linarith

lemma round4_zero : round4 0 = 0 := by unfold round4; norm_num

lemma round4_one : round4 1 = 1 := by unfold round4; norm_num

/-- C3 counterexample: at distance 20000 the computed relevance_score —
round(1 / (1 + 20000), 4) — is exactly 0, which is not strictly positive, so
the stored rounded score does not lie in (0, 1] for every distance ≥ 0. -/
theorem claim_C3_rounded_score_not_pos :
    relevance_score 20000 = 0 ∧ ¬ 0 < relevance_score 20000 := by
  have h : relevance_score 20000 = 0 := by
    unfold relevance_score round4 similarity_score
    norm_num
  exact ⟨h, by rw [h]; exact lt_irrefl 0⟩

/-- C3 (amended): each hit's relevance_score is 1 / (1 + distance) rounded to
4 decimal digits; for distances d, e ≥ 0 the unrounded score 1 / (1 + d) is
strictly positive, at most 1 and strictly decreasing in the raw distance,
while the recorded rounded score equals 1.0 at distance 0, 0.5 at distance 1
and 0.2 at distance 4, is weakly decreasing in the raw distance, and lies in
the closed interval [0, 1] (it reaches 0 for large distances). -/
theorem claim_C3_relevance_score (d e : ℚ) (hd : 0 ≤ d) (he : 0 ≤ e) :
    relevance_score d = round4 (1 / (1 + d)) ∧
    0 < similarity_score d ∧ similarity_score d ≤ 1 ∧
    relevance_score 0 = 1 ∧ relevance_score 1 = 0.5 ∧ relevance_score 4 = 0.2 ∧
    (d < e → similarity_score e < similarity_score d) ∧
    (d ≤ e → relevance_score e ≤ relevance_score d) ∧
    0 ≤ relevance_score d ∧ relevance_score d ≤ 1 := by
  refine ⟨rfl, similarity_score_pos hd, similarity_score_le_one hd,
    relevance_score_at_zero, ?_, ?_,
    fun hlt => similarity_score_strict_anti hd hlt,
    fun hle => round4_mono (similarity_score_anti hd hle), ?_, ?_⟩
  · rw [relevance_score_at_one]; norm_num
  · rw [relevance_score_at_four]; norm_num
  · rw [← round4_zero]
    exact round4_mono (le_of_lt (similarity_score_pos hd))
  · rw [← round4_one]
    exact round4_mono (similarity_score_le_one hd)

theorem claim_C3_relevance_score_witness :
    (0:ℚ) ≤ 1 ∧ (0:ℚ) ≤ 4 ∧ relevance_score 1 = 0.5 ∧
      similarity_score 4 < similarity_score 1 :=
  ⟨by norm_num, by norm_num,
    (claim_C3_relevance_score 1 4 (by norm_num) (by norm_num)).2.2.2.2.1,
    (claim_C3_relevance_score 1 4 (by norm_num) (by norm_num)).2.2.2.2.2.2.1 (by norm_num)⟩

/-- C4: the confidence estimate is "none" on an empty result list, depends
only on the top-ranked result, and maps the top relevance_score through the
fixed thresholds: at least 0.8 gives "high", at least 0.6 (but below 0.8)
gives "medium", anything lower gives "low". -/
theorem claim_C4_confidence :
    estimate_confidence [] = "none" ∧
    (∀ (r : SearchResult) (rs rs' : List SearchResult),
      estimate_confidence (r :: rs) = estimate_confidence (r :: rs')) ∧
    (∀ (r : SearchResult) (rs : List SearchResult),
      estimate_confidence (r :: rs) =
        if r.relevance_score ≥ 0.8 then "high"
        else if r.relevance_score ≥ 0.6 then "medium"
        else "low") :=
  ⟨rfl, fun _ _ _ => rfl, fun _ _ => rfl⟩

/-- C2: when retrieval produces no results, answer_question returns the fixed
fallback answer with empty sources, context_used 0, confidence "none" and an
all-zero usage record, and never calls the answer-generating LLM. -/
theorem claim_C2_empty_retrieval
    (retrieve : String → List SearchResult)
    (llm : String → String → Option String → List (String × String) → LLMAnswer)
    (llm_model question : String) (system_prompt : Option String)
    (conversation_history : List (String × String)) (include_sources : Bool)
    (h : retrieve question = []) :
    answer_question retrieve llm llm_model question system_prompt conversation_history
        include_sources =
      ({ answer := fallback_answer
         sources := []
         context_used := 0
         confidence := "none"
         model := llm_model
         usage := { prompt_tokens := 0, completion_tokens := 0, total_tokens := 0 } },
       false) := by
  unfold answer_question
  rw [h]
  rfl

theorem claim_C2_empty_retrieval_witness :
    answer_question (fun _ => [])
        (fun _ _ _ _ =>
          { answer := "a", model := "m"
            usage := { prompt_tokens := 1, completion_tokens := 1, total_tokens := 2 }
            finish_reason := "stop" })
        "gpt" "q" none [] true =
      ({ answer := fallback_answer
         sources := []
         context_used := 0
         confidence := "none"
         model := "gpt"
         usage := { prompt_tokens := 0, completion_tokens := 0, total_tokens := 0 } },
       false) :=
  claim_C2_empty_retrieval _ _ _ _ _ _ _ rfl

lemma semantic_search_queries (store : VectorQuery → VectorQueryResult)
    (embedQ : String → List ℚ) (db : Db) (query : String) (top_k : Nat) (user_id : String) :
    (semantic_search store embedQ db query top_k user_id).2 =
      if (store ⟨embedQ query, top_k, some user_id⟩).ids = [] ∨
          (store ⟨embedQ query, top_k, some user_id⟩).ids.headD [] = [] then
        [⟨embedQ query, top_k, some user_id⟩, ⟨embedQ query, top_k, none⟩]
      else
        [⟨embedQ query, top_k, some user_id⟩] := by
  simp only [semantic_search]
  split <;> rfl

/-- C1: semantic_search first queries the vector index filtered by the
caller's user_id; when that query has zero hits it issues exactly one more
query, identical except for carrying no filter, and when the filtered query
has at least one hit no unfiltered query is ever issued. -/
theorem claim_C1_fallback (store : VectorQuery → VectorQueryResult)
    (embedQ : String → List ℚ) (db : Db) (query : String) (top_k : Nat) (user_id : String) :
    ((store ⟨embedQ query, top_k, some user_id⟩).ids.headD [] = [] →
      (semantic_search store embedQ db query top_k user_id).2 =
        [⟨embedQ query, top_k, some user_id⟩, ⟨embedQ query, top_k, none⟩]) ∧
    ((store ⟨embedQ query, top_k, some user_id⟩).ids.headD [] ≠ [] →
      (semantic_search store embedQ db query top_k user_id).2 =
        [⟨embedQ query, top_k, some user_id⟩]) := by
  constructor
  · intro h
    rw [semantic_search_queries, if_pos (Or.inr h)]
  · intro h
    rw [semantic_search_queries, if_neg]
    rintro (hnil | hhd)
    · exact h (by rw [hnil]; rfl)
    · exact h hhd

def c1StoreEmpty : VectorQuery → VectorQueryResult :=
  fun _ => { ids := [], distances := [], documents := [], metadatas := [] }

def c1StoreHit : VectorQuery → VectorQueryResult :=
  fun _ => { ids := [["c1"]], distances := [[0]], documents := [["t"]], metadatas := [[[]]] }

def c1Embed : String → List ℚ := fun _ => [1]

def c1Db : Db := { chunks := fun _ => none, documents := fun _ => none }

theorem claim_C1_fallback_witness :
    (semantic_search c1StoreEmpty c1Embed c1Db "q" 5 "u").2 =
      [⟨[1], 5, some "u"⟩, ⟨[1], 5, none⟩] ∧
    (semantic_search c1StoreHit c1Embed c1Db "q" 5 "u").2 = [⟨[1], 5, some "u"⟩] :=
  ⟨(claim_C1_fallback c1StoreEmpty c1Embed c1Db "q" 5 "u").1 rfl,
    (claim_C1_fallback c1StoreHit c1Embed c1Db "q" 5 "u").2 (by decide)⟩

/-- C10: when retrieval is empty, the streaming pipeline never makes a
streaming LLM call and emits exactly a sources event with an empty citation
list, then exactly one answer event carrying the fixed fallback text, then
the terminal done event. -/
theorem claim_C10_empty_stream
    (retrieve : String → List SearchResult)
    (llmStream : String → String → Option String → List (String × String) → List String)
    (question : String) (system_prompt : Option String)
    (conversation_history : List (String × String))
    (h : retrieve question = []) :
    ask_question_stream_events retrieve llmStream question system_prompt
        conversation_history =
      ([SSEEvent.sources [], SSEEvent.answer fallback_answer, SSEEvent.done], false) := by
  unfold ask_question_stream_events answer_question_stream generate_response
  rw [h]
  rfl

theorem claim_C10_empty_stream_witness :
    ask_question_stream_events (fun _ => []) (fun _ _ _ _ => ["x"]) "q" none [] =
      ([SSEEvent.sources [], SSEEvent.answer fallback_answer, SSEEvent.done], false) :=
  claim_C10_empty_stream _ _ _ _ _ rfl

/-- C8: when retrieval returns at least one result, the emitted event list is
exactly one sources event carrying every citation, followed by one answer
event per generated fragment in generation order, followed by exactly one
terminal done event; in particular no other event types occur and the sources
event strictly precedes every answer event. -/
theorem claim_C8_stream_events
    (retrieve : String → List SearchResult)
    (llmStream : String → String → Option String → List (String × String) → List String)
    (question : String) (system_prompt : Option String)
    (conversation_history : List (String × String))
    (h : retrieve question ≠ []) :
    (ask_question_stream_events retrieve llmStream question system_prompt
        conversation_history).1 =
      SSEEvent.sources (((build_context (retrieve question)).2).map source_view) ::
        ((llmStream question (build_context (retrieve question)).1 system_prompt
            conversation_history).map SSEEvent.answer ++ [SSEEvent.done]) := by
  unfold ask_question_stream_events answer_question_stream generate_response
  have hne : (retrieve question).isEmpty = false := by
    cases hr : retrieve question with
    | nil => exact absurd hr h
    | cons a as => rfl
  simp only [hne, Bool.false_eq_true, if_false]

def c8Result : SearchResult :=
  { chunk_id := "c1"
    document_id := "d1"
    document_title := "T"
    content := "hello"
    page_number := some 1
    relevance_score := 1 / 2
    meta := { base := [], chunk_index := 0, created_at := "t0" } }

theorem claim_C8_stream_events_witness :
    (ask_question_stream_events (fun _ => [c8Result]) (fun _ _ _ _ => ["A", "B"])
        "q" none []).1 =
      [SSEEvent.sources
          [{ source_id := 1, document_title := "T", page_number := some 1,
             relevance_score := 1 / 2, content_preview := "hello" }],
        SSEEvent.answer "A", SSEEvent.answer "B", SSEEvent.done] := by
  rw [claim_C8_stream_events (fun _ => [c8Result]) (fun _ _ _ _ => ["A", "B"]) "q" none []
    (by simp [c8Result])]
  rfl

lemma build_context_go_source_ids (results : List SearchResult) (i : Nat) :
    ((build_context_go results i).2).map SourceCitation.source_id =
      List.range' i results.length := by
  induction results generalizing i with
  | nil => rfl
  | cons r rest ih =>
    simp only [build_context_go, List.map_cons, List.length_cons, List.range'_succ]
    rw [ih]

lemma build_context_go_previews (results : List SearchResult) (i : Nat) :
    ((build_context_go results i).2).map SourceCitation.content_preview =
      results.map (fun r =>
        if r.content.length > 200 then r.content.take 200 ++ "..." else r.content) := by
  induction results generalizing i with
  | nil => rfl
  | cons r rest ih =>
    simp only [build_context_go, List.map_cons]
    rw [ih]

lemma build_context_go_fields (results : List SearchResult) (i : Nat) :
    ((build_context_go results i).2).map
        (fun c => (c.chunk_id, c.document_id, c.document_title, c.page_number,
          c.relevance_score)) =
      results.map (fun r => (r.chunk_id, r.document_id, r.document_title, r.page_number,
        r.relevance_score)) := by
  induction results generalizing i with
  | nil => rfl
  | cons r rest ih =>
    simp only [build_context_go, List.map_cons]
    rw [ih]

/-- C5: context assembly builds exactly one citation per search result, in
input order (shown by the positional alignment of every copied field), the
i-th citation (1-based) carries source_id = i, and content_preview is the
full content when it has at most 200 characters and exactly the first 200
characters followed by the "..." truncation marker when it is longer. -/
theorem claim_C5_citations (results : List SearchResult) :
    ((build_context results).2).length = results.length ∧
    ((build_context results).2).map SourceCitation.source_id =
      List.range' 1 results.length ∧
    ((build_context results).2).map SourceCitation.content_preview =
      results.map (fun r =>
        if r.content.length > 200 then r.content.take 200 ++ "..." else r.content) ∧
    ((build_context results).2).map
        (fun c => (c.chunk_id, c.document_id, c.document_title, c.page_number,
          c.relevance_score)) =
      results.map (fun r => (r.chunk_id, r.document_id, r.document_title, r.page_number,
        r.relevance_score)) := by
  refine ⟨?_, ?_, ?_, ?_⟩
  · have h := build_context_go_source_ids results 1
    have := congrArg List.length h
    simpa [build_context] using this
  · exact build_context_go_source_ids results 1
  · exact build_context_go_previews results 1
  · exact build_context_go_fields results 1

lemma chunks_of_page_length (tokenLen : String → Nat) (pn : Nat) (ts : List String)
    (idx : Nat) : (chunks_of_page tokenLen pn ts idx).length = ts.length := by
  induction ts generalizing idx with
  | nil => rfl
  | cons t ts ih => simp [chunks_of_page, ih]

lemma chunks_of_page_indices (tokenLen : String → Nat) (pn : Nat) (ts : List String)
    (idx : Nat) :
    (chunks_of_page tokenLen pn ts idx).map Chunk.chunk_index =
      List.range' idx ts.length := by
  induction ts generalizing idx with
  | nil => rfl
  | cons t ts ih =>
    simp only [chunks_of_page, List.map_cons, List.length_cons, List.range'_succ]
    rw [ih]

lemma chunks_of_page_mem (tokenLen : String → Nat) (pn : Nat) (ts : List String)
    (idx : Nat) :
    ∀ c ∈ chunks_of_page tokenLen pn ts idx, c.page_number = pn ∧ c.content ∈ ts := by
  induction ts generalizing idx with
  | nil => intro c hc; cases hc
  | cons t ts ih =>
    intro c hc
    rcases List.mem_cons.mp hc with hc | hc
    · subst hc
      exact ⟨rfl, List.mem_cons_self _ _⟩
    · obtain ⟨h1, h2⟩ := ih (idx + 1) c hc
      exact ⟨h1, List.mem_cons_of_mem _ h2⟩

lemma chunk_pages_go_indices (split : String → List String) (tokenLen : String → Nat)
    (ps : List Page) (idx : Nat) :
    (chunk_pages_go split tokenLen ps idx).map Chunk.chunk_index =
      List.range' idx (chunk_pages_go split tokenLen ps idx).length := by
  induction ps generalizing idx with
  | nil => rfl
  | cons p ps ih =>
    by_cases h : pyStrip p.text = ""
    · simp only [chunk_pages_go, if_pos h]
      exact ih idx
    · simp only [chunk_pages_go, if_neg h, List.map_append, List.length_append,
        chunks_of_page_length]
      rw [chunks_of_page_indices, ih, List.range'_append_1]
      exact congrArg (fun n => List.range' idx n) (Nat.add_comm _ _)

lemma chunk_pages_go_mem (split : String → List String) (tokenLen : String → Nat)
    (ps : List Page) (idx : Nat) :
    ∀ c ∈ chunk_pages_go split tokenLen ps idx,
      ∃ p ∈ ps, c.page_number = p.page_number ∧ c.content ∈ split p.text := by
  induction ps generalizing idx with
  | nil => intro c hc; cases hc
  | cons p ps ih =>
    intro c hc
    by_cases h : pyStrip p.text = ""
    · rw [chunk_pages_go, if_pos h] at hc
      obtain ⟨p', hp', hcp⟩ := ih idx c hc
      exact ⟨p', List.mem_cons_of_mem _ hp', hcp⟩
    · rw [chunk_pages_go, if_neg h] at hc
      rcases List.mem_append.mp hc with hc | hc
      · obtain ⟨h1, h2⟩ := chunks_of_page_mem tokenLen p.page_number (split p.text) idx c hc
        exact ⟨p, List.mem_cons_self _ _, h1, h2⟩
      · obtain ⟨p', hp', hcp⟩ := ih (idx + (split p.text).length) c hc
        exact ⟨p', List.mem_cons_of_mem _ hp', hcp⟩

/-- C6: across a whole document the chunk_index values produced by
chunk_pages are the contiguous 0-based sequence 0, 1, 2, ... with no gaps or
repeats — a single counter that is not reset at page boundaries — no matter
how many pages are skipped for having empty trimmed text; and every chunk
records the page_number of the page whose split produced its content. -/
theorem claim_C6_chunk_pages (split : String → List String) (tokenLen : String → Nat)
    (pages_data : List Page) :
    (chunk_pages split tokenLen pages_data).map Chunk.chunk_index =
      List.range (chunk_pages split tokenLen pages_data).length ∧
    ∀ c ∈ chunk_pages split tokenLen pages_data,
      ∃ p ∈ pages_data, c.page_number = p.page_number ∧ c.content ∈ split p.text := by
  constructor
  · rw [chunk_pages, chunk_pages_go_indices, List.range_eq_range']
  · exact chunk_pages_go_mem split tokenLen pages_data 0

theorem claim_C6_chunk_pages_witness :
    ((chunk_pages (fun s => [s]) (fun _ => 0)
        [⟨1, "a"⟩, ⟨2, ""⟩, ⟨3, "b"⟩]).map Chunk.chunk_index = List.range 2) ∧
    ∃ p ∈ ([⟨1, "a"⟩, ⟨2, ""⟩, ⟨3, "b"⟩] : List Page),
      (⟨"a", 0, 1, 0, ⟨1, 1⟩⟩ : Chunk).page_number = p.page_number ∧
      (⟨"a", 0, 1, 0, ⟨1, 1⟩⟩ : Chunk).content ∈ (fun s => [s]) p.text :=
  ⟨(claim_C6_chunk_pages (fun s => [s]) (fun _ => 0) [⟨1, "a"⟩, ⟨2, ""⟩, ⟨3, "b"⟩]).1,
    (claim_C6_chunk_pages (fun s => [s]) (fun _ => 0) [⟨1, "a"⟩, ⟨2, ""⟩, ⟨3, "b"⟩]).2
      ⟨"a", 0, 1, 0, ⟨1, 1⟩⟩ (by decide)⟩

lemma generate_embeddings_batch_go_eq_map (embedOne : String → List ℚ) (k : Nat) :
    ∀ (n : Nat) (texts : List String), texts.length ≤ n →
      generate_embeddings_batch_go embedOne k texts = texts.map embedOne := by
  intro n
  induction n with
  | zero =>
    intro texts h
    have : texts = [] := List.length_eq_zero.mp (Nat.le_zero.mp h)
    subst this
    simp [generate_embeddings_batch_go]
  | succ n ih =>
    intro texts h
    match texts with
    | [] => simp [generate_embeddings_batch_go]
    | t :: ts =>
      rw [generate_embeddings_batch_go]
      rw [ih ((t :: ts).drop (k + 1))
        (by simp only [List.length_cons] at h
            simp only [List.length_drop, List.length_cons]
            omega)]
      rw [← List.map_append, List.take_append_drop]

lemma batch_windows_flatten (k : Nat) :
    ∀ (n : Nat) (texts : List String), texts.length ≤ n →
      (batch_windows k texts).flatten = texts := by
  intro n
  induction n with
  | zero =>
    intro texts h
    have : texts = [] := List.length_eq_zero.mp (Nat.le_zero.mp h)
    subst this
    simp [batch_windows]
  | succ n ih =>
    intro texts h
    match texts with
    | [] => simp [batch_windows]
    | t :: ts =>
      rw [batch_windows, List.flatten_cons]
      rw [ih ((t :: ts).drop (k + 1))
        (by simp only [List.length_cons] at h
            simp only [List.length_drop, List.length_cons]
            omega)]
      exact List.take_append_drop _ _

lemma batch_windows_sizes (k : Nat) :
    ∀ (n : Nat) (texts : List String), texts.length ≤ n →
      ∀ b ∈ batch_windows k texts, b.length ≤ k + 1 := by
  intro n
  induction n with
  | zero =>
    intro texts h
    have : texts = [] := List.length_eq_zero.mp (Nat.le_zero.mp h)
    subst this
    intro b hb
    simp [batch_windows] at hb
  | succ n ih =>
    intro texts h
    match texts with
    | [] =>
      intro b hb
      simp [batch_windows] at hb
    | t :: ts =>
      rw [batch_windows]
      intro b hb
      rcases List.mem_cons.mp hb with hb | hb
      · subst hb
        exact List.length_take_le (k + 1) (t :: ts)
      · exact ih ((t :: ts).drop (k + 1))
          (by simp only [List.length_cons] at h
              simp only [List.length_drop, List.length_cons]
              omega) b hb

lemma generate_embeddings_batch_go_eq_windows (embedOne : String → List ℚ) (k : Nat) :
    ∀ (n : Nat) (texts : List String), texts.length ≤ n →
      generate_embeddings_batch_go embedOne k texts =
        ((batch_windows k texts).map (fun b => b.map embedOne)).flatten := by
  intro n
  induction n with
  | zero =>
    intro texts h
    have : texts = [] := List.length_eq_zero.mp (Nat.le_zero.mp h)
    subst this
    simp [generate_embeddings_batch_go, batch_windows]
  | succ n ih =>
    intro texts h
    match texts with
    | [] => simp [generate_embeddings_batch_go, batch_windows]
    | t :: ts =>
      rw [generate_embeddings_batch_go, batch_windows, List.map_cons, List.flatten_cons]
      rw [ih ((t :: ts).drop (k + 1))
        (by simp only [List.length_cons] at h
            simp only [List.length_drop, List.length_cons]
            omega)]

/-- C7: with any positive batch_size, batched embedding generation succeeds
and returns one embedding per input text, positionally aligned with the
input; the loop walks the input as consecutive windows of at most batch_size
texts whose concatenation, in order, is the whole input, and the output is
the in-order concatenation of the per-window results. -/
theorem claim_C7_embed_batch (embedOne : String → List ℚ) (texts : List String)
    (batch_size : Nat) (h : 0 < batch_size) :
    generate_embeddings_batch embedOne texts batch_size = some (texts.map embedOne) ∧
    (texts.map embedOne).length = texts.length ∧
    (∀ i, i < texts.length →
      (texts.map embedOne).getD i [] = embedOne (texts.getD i "")) ∧
    (batch_windows (batch_size - 1) texts).flatten = texts ∧
    (∀ b ∈ batch_windows (batch_size - 1) texts, b.length ≤ batch_size) ∧
    generate_embeddings_batch embedOne texts batch_size =
      some (((batch_windows (batch_size - 1) texts).map
        (fun b => b.map embedOne)).flatten) := by
  obtain ⟨k, rfl⟩ : ∃ k, batch_size = k + 1 :=
    ⟨batch_size - 1, (Nat.succ_pred_eq_of_pos h).symm⟩
  refine ⟨?_, List.length_map _ _, ?_, ?_, ?_, ?_⟩
  · rw [generate_embeddings_batch,
      generate_embeddings_batch_go_eq_map embedOne k texts.length texts le_rfl]
  · intro i hi
    rw [List.getD_eq_getElem?_getD, List.getD_eq_getElem?_getD, List.getElem?_map,
      List.getElem?_eq_getElem hi]
    rfl
  · exact batch_windows_flatten k texts.length texts le_rfl
  · intro b hb
    exact batch_windows_sizes k texts.length texts le_rfl b hb
  · rw [generate_embeddings_batch,
      generate_embeddings_batch_go_eq_windows embedOne k texts.length texts le_rfl]
    exact rfl

theorem claim_C7_embed_batch_witness :
    (0 < 2 ∧
      generate_embeddings_batch (fun s => [(s.length : ℚ)]) ["a", "bb", "ccc"] 2 =
        some [[1], [2], [3]]) ∧
    (batch_windows 1 ["a", "bb", "ccc"]).flatten = ["a", "bb", "ccc"] :=
  ⟨⟨by decide,
      (claim_C7_embed_batch (fun s => [(s.length : ℚ)]) ["a", "bb", "ccc"] 2
        (by decide)).1⟩,
    (claim_C7_embed_batch (fun s => [(s.length : ℚ)]) ["a", "bb", "ccc"] 2
      (by decide)).2.2.2.1⟩

/-- C9: multi_query_rag returns exactly one entry per question, in input
order; a question whose answering fails yields an inline error entry
(error flag set, empty sources, the formatted error text) while every other
question is still processed, a successful question's entry carrying its full
answer result — so one failure never aborts the remaining questions. -/
theorem claim_C9_multi_query (answer1 : String → Except String AnswerResult)
    (questions : List String) :
    (multi_query_rag answer1 questions).length = questions.length ∧
    (multi_query_rag answer1 questions).map MultiQueryEntry.question = questions ∧
    ∀ i, i < questions.length →
      (∀ a, answer1 (questions.getD i "") = .ok a →
        (multi_query_rag answer1 questions).getD i (.failed "" "") =
          .success (questions.getD i "") a) ∧
      (∀ e, answer1 (questions.getD i "") = .error e →
        ((multi_query_rag answer1 questions).getD i (.failed "" "")).isError = true ∧
        ((multi_query_rag answer1 questions).getD i (.failed "" "")).sourcesList = [] ∧
        ((multi_query_rag answer1 questions).getD i (.failed "" "")).answerText =
          "Error processing question: " ++ e) := by
  refine ⟨by simp [multi_query_rag], ?_, ?_⟩
  · rw [multi_query_rag, List.map_map]
    have : ∀ q, (MultiQueryEntry.question ∘ fun q =>
        match answer1 q with
        | .ok a => MultiQueryEntry.success q a
        | .error e => MultiQueryEntry.failed q e) q = q := by
      intro q
      simp only [Function.comp_apply]
      cases answer1 q <;> rfl
    calc questions.map _ = questions.map id := List.map_congr_left fun q _ => this q
      _ = questions := List.map_id questions
  · intro i hi
    have hq : questions[i]? = some (questions.getD i "") := by
      rw [List.getD_eq_getElem?_getD, List.getElem?_eq_getElem hi]
      rfl
    have hentry : (multi_query_rag answer1 questions).getD i (.failed "" "") =
        (match answer1 (questions.getD i "") with
          | .ok a => MultiQueryEntry.success (questions.getD i "") a
          | .error e => MultiQueryEntry.failed (questions.getD i "") e) := by
      rw [multi_query_rag, List.getD_eq_getElem?_getD, List.getElem?_map, hq]
      rfl
    constructor
    · intro a ha
      rw [hentry, ha]
    · intro e he
      rw [hentry, he]
      exact ⟨rfl, rfl, rfl⟩

def c9Answer : String → Except String AnswerResult := fun q =>
  if q = "q2" then .error "boom"
  else .ok { answer := "ans", sources := [], context_used := 1, confidence := "high",
             model := "m",
             usage := { prompt_tokens := 1, completion_tokens := 1, total_tokens := 2 } }

theorem claim_C9_multi_query_witness :
    (multi_query_rag c9Answer ["q1", "q2", "q3"]).length = 3 ∧
    ((multi_query_rag c9Answer ["q1", "q2", "q3"]).getD 1 (.failed "" "")).isError =
      true ∧
    ((multi_query_rag c9Answer ["q1", "q2", "q3"]).getD 1 (.failed "" "")).sourcesList =
      [] ∧
    ((multi_query_rag c9Answer ["q1", "q2", "q3"]).getD 1 (.failed "" "")).answerText =
      "Error processing question: boom" := by
  have h := claim_C9_multi_query c9Answer ["q1", "q2", "q3"]
  have h2 := (h.2.2 1 (by decide)).2 "boom" rfl
  exact ⟨h.1, h2.1, h2.2.1, h2.2.2⟩
